import Mathlib

/-!
Shallow embedding of the rQuery-Builder SQL statement generator
(src/placeholder.rs and src/postgres/*.rs) and proofs about its
documented behaviour.

Conventions of the embedding:
* `serde_json::Value` becomes the inductive `Value`; only the
  constructor shape matters to the engine (arrays bind as `(?)`,
  everything else as `?`); payloads are simplified to `Int`/`String`.
* Rust `String` becomes Lean `String`; Rust `str::trim` is embedded as
  `rustTrim` (drop whitespace from both ends), `Vec::join(sep)` as
  `joinSep`, `Vec::join("")` as `strConcat`.
* Fallible Rust functions (`anyhow::Result<T>`) become
  `Except String T`, carrying the literal error message of the source.
* Builder methods that mutate `&mut self` become pure
  `Builder → Builder` functions.
-/

/-- Embedding of `serde_json::Value` (only the constructor shape is ever
inspected by the engine, via `Value::Array(_)` patterns). -/
inductive Value where
  | null : Value
  | bool (b : Bool) : Value
  | num (n : Int) : Value
  | str (s : String) : Value
  | arr (items : List Value) : Value
  | obj (fields : List (String × Value)) : Value

/-- `src/placeholder.rs`: the placeholder style for generated SQL. -/
inductive PlaceholderKind where
  | QuestionMark : PlaceholderKind
  | DollarSequential : PlaceholderKind
deriving DecidableEq

instance : Inhabited PlaceholderKind := ⟨PlaceholderKind.QuestionMark⟩

/-- `src/postgres/logic.rs`: boolean connective between predicates. -/
inductive Logic where
  | And : Logic
  | Or : Logic
deriving DecidableEq

/-- `Display for Logic`. -/
def Logic.toString : Logic → String
  | .And => "AND"
  | .Or => "OR"

/-- `src/postgres/operator.rs`: the full operator enumeration. -/
inductive Operator where
  | Eq | Neq
  | Gt | Gte | Lt | Lte
  | Like
  | In | NotIn
  | IsNull | NotNull
  | Between
  | JsonbValue | JsonbValueAsText | JsonbContains | JsonbContained
  | JsonbHasKey | JsonbHasAnyKeys | JsonbHasAllKeys | JsonbConcatenate
  | JsonbRemoveKey | JsonbRemovePath | JsonbHasPath | JsonbPathExists
deriving DecidableEq

/-- `Display for Operator` (`src/postgres/operator.rs`). -/
def Operator.toString : Operator → String
  | .Eq => "="
  | .Neq => "!="
  | .Gt => ">"
  | .Gte => ">="
  | .Lt => "<"
  | .Lte => "<="
  | .Like => "LIKE"
  | .In => "IN"
  | .NotIn => "NOT IN"
  | .IsNull => "IS NULL"
  | .NotNull => "IS NOT NULL"
  | .Between => "BETWEEN"
  | .JsonbValue => "->"
  | .JsonbValueAsText => "->>"
  | .JsonbContains => "@>"
  | .JsonbContained => "<@"
  | .JsonbHasKey => "?"
  | .JsonbHasAnyKeys => "?|"
  | .JsonbHasAllKeys => "?&"
  | .JsonbConcatenate => "||"
  | .JsonbRemoveKey => "-"
  | .JsonbRemovePath => "#-"
  | .JsonbHasPath => "@?"
  | .JsonbPathExists => "@@"

/-- Embedding of Rust `str::trim`: drop unicode whitespace from both
ends of the string. -/
def rustTrim (s : String) : String :=
  String.mk (((s.data.dropWhile Char.isWhitespace).reverse.dropWhile Char.isWhitespace).reverse)

/-- Embedding of Rust `Vec<String>::join(sep)`. -/
def joinSep (sep : String) : List String → String
  | [] => ""
  | [s] => s
  | s :: rest => s ++ sep ++ joinSep sep rest

/-- Embedding of Rust `Vec<String>::join("")` (plain concatenation). -/
def strConcat : List String → String
  | [] => ""
  | s :: rest => s ++ strConcat rest

/-- The `if let Some(value) = condition { value.to_string() } else { "" }`
pattern used by `WhereBuilder::format` and `JoinBuilder::format`. -/
def optLogicText : Option Logic → String
  | some v => v.toString
  | none => ""

/-- The `if let Some(value) = table_alias { format!("{value}.") } else { "" }`
pattern used by the condition / order-by / group-by builders. -/
def aliasDot : Option String → String
  | some v => v ++ "."
  | none => ""

/-- `src/postgres/condition_builder.rs`: `ConditionValue`. -/
inductive ConditionValue where
  | Field (table_alias table_field : String) : ConditionValue
  | Single (v : Value) : ConditionValue
  | Range (v1 v2 : Value) : ConditionValue

/-- `src/postgres/condition_builder.rs`: `ConditionBuilder`. -/
structure ConditionBuilder where
  table_alias : Option String
  field : String
  operator : Operator
  value : Option ConditionValue
  logic : Option Logic

/-- `ConditionBuilder::bind_value`. -/
def ConditionBuilder.bind_value : Value → String
  | .arr _ => "(?)"
  | _ => "?"

/-- `ConditionBuilder::bind`. -/
def ConditionBuilder.bind (condition_value : ConditionValue) : Option String :=
  some (match condition_value with
    | .Field table_alias table_field => table_alias ++ "." ++ table_field
    | .Single value => ConditionBuilder.bind_value value
    | .Range value1 value2 =>
        ConditionBuilder.bind_value value1 ++ " AND " ++ ConditionBuilder.bind_value value2)

/-- `ConditionBuilder::build`. -/
def ConditionBuilder.build (item : ConditionBuilder) : Except String String :=
  let table_alias := aliasDot item.table_alias
  if item.field = "" then
    .error "field is empty"
  else
    let value : Option String :=
      match item.value with
      | some v => ConditionBuilder.bind v
      | none => none
    let condition :=
      match value with
      | some v =>
        if item.operator ≠ Operator.IsNull ∧ item.operator ≠ Operator.NotNull then
          table_alias ++ item.field ++ " " ++ item.operator.toString ++ " " ++ v
        else
          table_alias ++ item.field ++ " " ++ item.operator.toString
      | none => table_alias ++ item.field ++ " " ++ item.operator.toString
    match item.logic with
    | some logic => .ok (logic.toString ++ " " ++ condition)
    | none => .ok condition

/-- `src/postgres/expression_builder.rs`: `ExpressionBuilder`. -/
structure ExpressionBuilder where
  condition : String := ""
  logic : Option Logic := none
  values : List Value := []

/-- The loop body of `ExpressionBuilder::build`: fold the rendered
condition fragments and their bound values into the accumulator. -/
def exprFold : List ConditionBuilder → ExpressionBuilder → Except String ExpressionBuilder
  | [], data => .ok data
  | item :: rest, data =>
    match ConditionBuilder.build item with
    | .error e => .error e
    | .ok condition =>
      let newCondition :=
        if data.condition = "" then condition else data.condition ++ " " ++ condition
      let newValues :=
        match item.value with
        | some (ConditionValue.Single value) => data.values ++ [value]
        | some (ConditionValue.Range value1 value2) => data.values ++ [value1, value2]
        | some (ConditionValue.Field _ _) => data.values
        | none => data.values
      exprFold rest { data with condition := newCondition, values := newValues }

/-- `ExpressionBuilder::build`. -/
def ExpressionBuilder.build (values : List ConditionBuilder) (logic : Option Logic) :
    Except String ExpressionBuilder :=
  match exprFold values {} with
  | .error e => .error e
  | .ok data => .ok { data with logic := logic }

/-- Count of generic placeholder markers in a piece of statement text. -/
def countMarkers (s : String) : Nat := s.data.count '?'

/-- Per-condition bound-value contribution as the spec states it:
a Literal (`Single`) contributes 1, a `Range` 2, a `FieldReference` 0. -/
def valueContribution : Option ConditionValue → Nat
  | some (ConditionValue.Single _) => 1
  | some (ConditionValue.Range _ _) => 2
  | _ => 0

/-- `src/postgres/where_builder.rs`: the built filter clause (statement
text plus bound values). The repository also keeps a historical
`WhereClause` variant whose fields `expression`/`condition` mirror
`ExpressionBuilder.condition`/`.logic`; the statement assemblers call
`WhereBuilder::build` with `Vec<ExpressionBuilder>`, which is the form
embedded here. -/
structure WhereBuilder where
  statement : String := ""
  values : List Value := []

/-- `WhereBuilder::format`: wrap one expression in `CONNECTIVE (text)`
when grouping, else pass the text through. -/
def WhereBuilder.format (expression : String) (condition : Option Logic)
    (do_grouping : Bool) : String :=
  let condition := optLogicText condition
  if do_grouping then condition ++ " (" ++ expression ++ ")" else expression

/-- `WhereBuilder::build`. -/
def WhereBuilder.build (values : List ExpressionBuilder) : WhereBuilder :=
  let do_grouping := decide (values.length > 1)
  let clauses := values.map (fun item => WhereBuilder.format item.condition item.logic do_grouping)
  { statement := "WHERE " ++ rustTrim (joinSep " " clauses),
    values := (values.map (fun item => item.values)).flatten }

/-- `src/postgres/join_builder.rs`: `JoinKind`. -/
inductive JoinKind where
  | Inner | Left | Right | Full | Cross
deriving DecidableEq

/-- `Display for JoinKind`. -/
def JoinKind.toString : JoinKind → String
  | .Inner => "INNER"
  | .Left => "LEFT"
  | .Right => "RIGHT"
  | .Full => "FULL"
  | .Cross => "CROSS"

/-- `src/postgres/join_builder.rs`: the built join clause. -/
structure JoinBuilder where
  statement : String := ""
  values : List Value := []

/-- `JoinBuilder::format` (textually identical to `WhereBuilder::format`
in the source; duplicated here as it is there). -/
def JoinBuilder.format (condition : String) (logic : Option Logic)
    (do_grouping : Bool) : String :=
  let logic := optLogicText logic
  if do_grouping then logic ++ " (" ++ condition ++ ")" else condition

/-- `JoinBuilder::build`. -/
def JoinBuilder.build (kind : JoinKind) (table table_alias : String)
    (values : List ExpressionBuilder) : JoinBuilder :=
  let do_grouping := decide (values.length > 1)
  let expressions := values.map (fun item => JoinBuilder.format item.condition item.logic do_grouping)
  { statement := kind.toString ++ " JOIN " ++ table ++ " as " ++ table_alias ++ " ON " ++
      rustTrim (joinSep " " expressions),
    values := (values.map (fun item => item.values)).flatten }

/-- `src/postgres/order_by_builder.rs`: `Sequence`. -/
inductive Sequence where
  | Asc | Desc
deriving DecidableEq

/-- `Display for Sequence`. -/
def Sequence.toString : Sequence → String
  | .Asc => "ASC"
  | .Desc => "DESC"

/-- `src/postgres/order_by_builder.rs`: `OrderByItem`. -/
structure OrderByItem where
  table_alias : Option String
  field : String
  sequence : Sequence

/-- The loop of `OrderByBuilder::build`: render each item, failing on an
empty field, de-duplicating by rendered text. -/
def orderByLoop : List OrderByItem → List String → Except String (List String)
  | [], acc => .ok acc
  | item :: rest, acc =>
    let table_alias := aliasDot item.table_alias
    if item.field = "" then
      .error "order by field is empty"
    else
      let value := table_alias ++ item.field ++ " " ++ item.sequence.toString
      if acc.contains value then orderByLoop rest acc else orderByLoop rest (acc ++ [value])

/-- `OrderByBuilder::build`. -/
def OrderByBuilder.build (values : List OrderByItem) : Except String String :=
  if values.isEmpty then
    .error "order by item is empty"
  else
    match orderByLoop values [] with
    | .error e => .error e
    | .ok order_by => .ok ("ORDER BY " ++ rustTrim (joinSep ", " order_by))

/-- `src/postgres/group_by_builder.rs`: `GroupByItem`. -/
structure GroupByItem where
  table_alias : Option String
  field : String

/-- The loop of `GroupByBuilder::build`. -/
def groupByLoop : List GroupByItem → List String → Except String (List String)
  | [], acc => .ok acc
  | item :: rest, acc =>
    let table_alias := aliasDot item.table_alias
    if item.field = "" then
      .error "group by field is empty"
    else
      let value := table_alias ++ item.field
      if acc.contains value then groupByLoop rest acc else groupByLoop rest (acc ++ [value])

/-- `GroupByBuilder::build`. -/
def GroupByBuilder.build (values : List GroupByItem) : Except String String :=
  if values.isEmpty then
    .error "group by item is empty"
  else
    match groupByLoop values [] with
    | .error e => .error e
    | .ok group_by => .ok ("GROUP BY " ++ rustTrim (joinSep ", " group_by))

/-- The character-scanning placeholder substitution loop shared by the
statement assemblers (`SelectBuilder::build`'s DollarSequential arm and
the whole-text scan of `UpdateBuilder::build` / `DeleteBuilder::build`):
each character maps to a fragment; the generic marker maps to itself
under `QuestionMark` and to the sigil plus the incremented 1-based
counter under `DollarSequential`. -/
def substMap (kind : PlaceholderKind) : List Char → Nat → List String
  | [], _ => []
  | c :: rest, counter =>
    if c = '?' then
      match kind with
      | .QuestionMark => "?" :: substMap kind rest counter
      | .DollarSequential => ("$" ++ toString (counter + 1)) :: substMap kind rest (counter + 1)
    else
      String.singleton c :: substMap kind rest counter

/-- `src/postgres/select_builder.rs`: `SelectBuilder` state.
(`columns_jsonb` is an unimplemented stub in the source — `todo!()` —
and is not part of any claim, so it has no embedding.) -/
structure SelectBuilder where
  distinct : Bool := false
  table : String := ""
  fields : List String := []
  limit : Option Nat := none
  offset : Option Nat := none
  values : List Value := []
  filter_statement : Option String := none
  join_statement : Option String := none
  group_by_statement : Option String := none
  order_by_statement : Option String := none
  placeholder_kind : PlaceholderKind := PlaceholderKind.QuestionMark

/-- `SelectBuilder::new`. -/
def SelectBuilder.new (placeholder : PlaceholderKind) : SelectBuilder :=
  { placeholder_kind := placeholder }

/-- `SelectBuilder::distinct`. -/
def SelectBuilder.setDistinct (b : SelectBuilder) : SelectBuilder :=
  { b with distinct := true }

/-- `SelectBuilder::table`. -/
def SelectBuilder.setTable (b : SelectBuilder) (table table_alias : String) : SelectBuilder :=
  { b with table := table ++ " as " ++ table_alias }

/-- `SelectBuilder::join`. -/
def SelectBuilder.join (b : SelectBuilder) (kind : JoinKind) (table table_alias : String)
    (values : List ExpressionBuilder) : SelectBuilder :=
  if values.isEmpty then b
  else
    let item := JoinBuilder.build kind table table_alias values
    { b with
      values := if item.values.isEmpty then b.values else b.values ++ item.values,
      join_statement :=
        match b.join_statement with
        | some statement => some (statement ++ " " ++ item.statement)
        | none => some item.statement }

/-- `SelectBuilder::filter`. -/
def SelectBuilder.filter (b : SelectBuilder) (values : List ExpressionBuilder) : SelectBuilder :=
  if values.isEmpty then b
  else
    let result := WhereBuilder.build values
    { b with
      filter_statement := some result.statement,
      values := if result.values.isEmpty then b.values else b.values ++ result.values }

/-- `SelectBuilder::columns`. -/
def SelectBuilder.columns (b : SelectBuilder) (table_alias : String) (values : List String) :
    SelectBuilder :=
  let fields :=
    if values.isEmpty then [table_alias ++ ".*"]
    else values.map (fun value => table_alias ++ "." ++ value)
  { b with fields := b.fields ++ fields }

/-- `SelectBuilder::columns_raw`. -/
def SelectBuilder.columns_raw (b : SelectBuilder) (values : List String) : SelectBuilder :=
  let fields := if values.isEmpty then ["*"] else values
  { b with fields := b.fields ++ fields }

/-- `SelectBuilder::order_by`. -/
def SelectBuilder.order_by (b : SelectBuilder) (values : List OrderByItem) :
    Except String SelectBuilder :=
  if values.isEmpty then .ok b
  else
    match OrderByBuilder.build values with
    | .error e => .error e
    | .ok s => .ok { b with order_by_statement := some s }

/-- `SelectBuilder::group_by`. -/
def SelectBuilder.group_by (b : SelectBuilder) (values : List GroupByItem) :
    Except String SelectBuilder :=
  if values.isEmpty then .ok b
  else
    match GroupByBuilder.build values with
    | .error e => .error e
    | .ok s => .ok { b with group_by_statement := some s }

/-- `SelectBuilder::limit`. -/
def SelectBuilder.setLimit (b : SelectBuilder) (value : Nat) : SelectBuilder :=
  { b with limit := some value }

/-- `SelectBuilder::offset`. -/
def SelectBuilder.setOffset (b : SelectBuilder) (value : Nat) : SelectBuilder :=
  { b with offset := some value }

/-- `SelectBuilder::get_values`. -/
def SelectBuilder.get_values (b : SelectBuilder) : List Value := b.values

/-- The statement text assembled by `SelectBuilder::build` before the
placeholder pass (the `statement` local of the source, just before the
`match self.placeholder_kind`). -/
def SelectBuilder.statementText (b : SelectBuilder) : String :=
  let fields := joinSep ", " b.fields
  let statement :=
    if b.distinct then "SELECT DISTINCT " ++ fields ++ " FROM " ++ b.table
    else "SELECT " ++ fields ++ " FROM " ++ b.table
  let statement :=
    match b.join_statement with
    | some value => statement ++ " " ++ value
    | none => statement
  let statement :=
    match b.filter_statement with
    | some value => statement ++ " " ++ value
    | none => statement
  let statement :=
    match b.group_by_statement with
    | some value => statement ++ " " ++ value
    | none => statement
  let statement :=
    match b.order_by_statement with
    | some value => statement ++ " " ++ value
    | none => statement
  let statement :=
    match b.limit with
    | some value => statement ++ " LIMIT " ++ toString value
    | none => statement
  match b.offset with
  | some value => statement ++ " OFFSET " ++ toString value
  | none => statement

/-- `SelectBuilder::build`: assemble, then apply the placeholder pass
(`QuestionMark` just trims; `DollarSequential` runs the character scan). -/
def SelectBuilder.build (b : SelectBuilder) : Except String String :=
  match b.placeholder_kind with
  | .QuestionMark => .ok (rustTrim b.statementText)
  | .DollarSequential =>
      .ok (rustTrim (strConcat (substMap PlaceholderKind.DollarSequential b.statementText.data 0)))

/-- `src/postgres/set_builder.rs`: `SetValue`. -/
inductive SetValue where
  | Value (v : Value) : SetValue
  | Query (q : SelectBuilder) : SetValue

/-- `src/postgres/set_builder.rs`: `SetFieldUpdate`. -/
structure SetFieldUpdate where
  field : String
  value : SetValue

/-- `src/postgres/set_builder.rs`: the built SET clause. -/
structure SetBuilder where
  statement : String
  values : List Value

/-- The loop of `SetBuilder::build`: fold the assignment expressions and
spliced values, rejecting a sub-select built with any placeholder kind
other than `QuestionMark`. -/
def setLoop : List SetFieldUpdate → List String → List Value →
    Except String (List String × List Value)
  | [], expressions, values => .ok (expressions, values)
  | item :: rest, expressions, values =>
    match item.value with
    | SetValue.Value value =>
        setLoop rest (expressions ++ [item.field ++ " = ?"]) (values ++ [value])
    | SetValue.Query selected_builder =>
      if selected_builder.placeholder_kind ≠ PlaceholderKind.QuestionMark then
        .error "select builder should be using the question mark placeholder kind"
      else
        match SelectBuilder.build selected_builder with
        | .error e => .error e
        | .ok result =>
            setLoop rest (expressions ++ [item.field ++ " = (" ++ result ++ ")"])
              (values ++ selected_builder.get_values)

/-- `SetBuilder::build`. -/
def SetBuilder.build (items : List SetFieldUpdate) : Except String SetBuilder :=
  match setLoop items [] [] with
  | .error e => .error e
  | .ok (expressions, values) =>
      .ok { statement := "SET " ++ joinSep ", " expressions, values := values }

/-- `src/postgres/update_builder.rs`: `UpdateBuilder` state. -/
structure UpdateBuilder where
  table : String := ""
  set : List String := []
  values : List Value := []
  set_statement : String := ""
  filter_statement : Option String := none
  returning_statement : Option String := none
  placeholder_kind : PlaceholderKind := PlaceholderKind.QuestionMark

/-- `UpdateBuilder::new`. -/
def UpdateBuilder.new (placeholder : PlaceholderKind) : UpdateBuilder :=
  { placeholder_kind := placeholder }

/-- `UpdateBuilder::table`. -/
def UpdateBuilder.setTable (b : UpdateBuilder) (table : String) : UpdateBuilder :=
  { b with table := table }

/-- `UpdateBuilder::filter`. -/
def UpdateBuilder.filter (b : UpdateBuilder) (values : List ExpressionBuilder) : UpdateBuilder :=
  if values.isEmpty then b
  else
    let result := WhereBuilder.build values
    { b with
      filter_statement := some result.statement,
      values := if result.values.isEmpty then b.values else b.values ++ result.values }

/-- `UpdateBuilder::set`. -/
def UpdateBuilder.setAssignments (b : UpdateBuilder) (values : List SetFieldUpdate) :
    Except String UpdateBuilder :=
  if b.set_statement ≠ "" then
    .error "`.set()` can only be calld once"
  else
    match SetBuilder.build values with
    | .error e => .error e
    | .ok builder =>
        .ok { b with set_statement := builder.statement, values := b.values ++ builder.values }

/-- `UpdateBuilder::returning`. -/
def UpdateBuilder.returning (b : UpdateBuilder) (values : List String) : UpdateBuilder :=
  if values.isEmpty then b
  else { b with returning_statement := some ("RETURNING " ++ joinSep ", " values) }

/-- The statement text assembled by `UpdateBuilder::build` before the
character-scanning placeholder pass. -/
def UpdateBuilder.statementText (b : UpdateBuilder) : String :=
  let statement := "UPDATE " ++ b.table ++ " " ++ b.set_statement
  let statement :=
    match b.filter_statement with
    | some stmt => statement ++ " " ++ stmt
    | none => statement
  match b.returning_statement with
  | some stmt => statement ++ " " ++ stmt
  | none => statement

/-- `UpdateBuilder::build`: assemble, then run the character scan under
the builder's placeholder kind, then trim. -/
def UpdateBuilder.build (b : UpdateBuilder) : Except String String :=
  .ok (rustTrim (strConcat (substMap b.placeholder_kind b.statementText.data 0)))

/-- `src/postgres/delete_builder.rs`: `DeleteBuilder` state. -/
structure DeleteBuilder where
  table : String := ""
  set : List String := []
  values : List Value := []
  using_table : Option String := none
  filter_statement : Option String := none
  returning_statement : Option String := none
  placeholder_kind : PlaceholderKind := PlaceholderKind.QuestionMark

/-- `DeleteBuilder::new`. -/
def DeleteBuilder.new (placeholder : PlaceholderKind) : DeleteBuilder :=
  { placeholder_kind := placeholder }

/-- `DeleteBuilder::table`. -/
def DeleteBuilder.setTable (b : DeleteBuilder) (table : String) (table_alias : Option String) :
    DeleteBuilder :=
  { b with table :=
      match table_alias with
      | some a => table ++ " as " ++ a
      | none => table }

/-- `DeleteBuilder::using`. -/
def DeleteBuilder.usingTable (b : DeleteBuilder) (table : String) (table_alias : Option String) :
    DeleteBuilder :=
  { b with using_table :=
      match table_alias with
      | some a => some (table ++ " as " ++ a)
      | none => some table }

/-- `DeleteBuilder::filter`. -/
def DeleteBuilder.filter (b : DeleteBuilder) (values : List ExpressionBuilder) : DeleteBuilder :=
  if values.isEmpty then b
  else
    let result := WhereBuilder.build values
    { b with
      filter_statement := some result.statement,
      values := if result.values.isEmpty then b.values else b.values ++ result.values }

/-- `DeleteBuilder::returning`. -/
def DeleteBuilder.returning (b : DeleteBuilder) (values : List String) : DeleteBuilder :=
  if values.isEmpty then b
  else { b with returning_statement := some ("RETURNING " ++ joinSep ", " values) }

/-- The statement text assembled by `DeleteBuilder::build` before the
character-scanning placeholder pass. -/
def DeleteBuilder.statementText (b : DeleteBuilder) : String :=
  let statement := "DELETE FROM " ++ b.table
  let statement :=
    match b.using_table with
    | some stmt => statement ++ " " ++ stmt
    | none => statement
  let statement :=
    match b.filter_statement with
    | some stmt => statement ++ " " ++ stmt
    | none => statement
  match b.returning_statement with
  | some stmt => statement ++ " " ++ stmt
  | none => statement

/-- `DeleteBuilder::build`. -/
def DeleteBuilder.build (b : DeleteBuilder) : Except String String :=
  .ok (rustTrim (strConcat (substMap b.placeholder_kind b.statementText.data 0)))

/-- `src/postgres/insert_builder.rs`: `InsertBuilder` state. -/
structure InsertBuilder where
  table : String := ""
  fields : List String := []
  values : List (List Value) := []
  returning_statement : Option String := none
  placeholder_kind : PlaceholderKind := PlaceholderKind.QuestionMark

/-- `InsertBuilder::new`. -/
def InsertBuilder.new (placeholder : PlaceholderKind) : InsertBuilder :=
  { placeholder_kind := placeholder }

/-- `InsertBuilder::table`. -/
def InsertBuilder.setTable (b : InsertBuilder) (table : String) : InsertBuilder :=
  { b with table := table }

/-- `InsertBuilder::columns`. -/
def InsertBuilder.columns (b : InsertBuilder) (values : List String) : InsertBuilder :=
  { b with fields := values }

/-- `InsertBuilder::values`: append one value tuple, failing when its
arity differs from the declared column list. -/
def InsertBuilder.addValues (b : InsertBuilder) (values : List Value) :
    Except String InsertBuilder :=
  if b.fields.length ≠ values.length then
    .error "mistched number of fields and values"
  else
    .ok { b with values := b.values ++ [values] }

/-- `InsertBuilder::get_values`. -/
def InsertBuilder.get_values (b : InsertBuilder) : List (List Value) := b.values

/-- `InsertBuilder::returning`. -/
def InsertBuilder.returning (b : InsertBuilder) (values : List String) : InsertBuilder :=
  if values.isEmpty then b
  else { b with returning_statement := some ("RETURNING " ++ joinSep ", " values) }

/-- The placeholder fragments of one value tuple in
`InsertBuilder::build`, threading the running counter. -/
def insertPlaceholders (kind : PlaceholderKind) : List Value → Nat → List String × Nat
  | [], counter => ([], counter)
  | _ :: rest, counter =>
    match kind with
    | .QuestionMark =>
        let (ps, c) := insertPlaceholders kind rest counter
        ("?" :: ps, c)
    | .DollarSequential =>
        let (ps, c) := insertPlaceholders kind rest (counter + 1)
        (("$" ++ toString (counter + 1)) :: ps, c)

/-- The rendered `(…, …)` tuples of `InsertBuilder::build`, counter
threaded across tuples. -/
def insertTuples (kind : PlaceholderKind) : List (List Value) → Nat → List String
  | [], _ => []
  | items :: rest, counter =>
    let (placeholders, c) := insertPlaceholders kind items counter
    ("(" ++ joinSep ", " placeholders ++ ")") :: insertTuples kind rest c

/-- `InsertBuilder::build` (never fails: the arity check lives in
`InsertBuilder::values`). -/
def InsertBuilder.build (b : InsertBuilder) : Except String String :=
  let fields := joinSep ", " b.fields
  let values := joinSep ", " (insertTuples b.placeholder_kind b.values 0)
  let returning_statement := b.returning_statement.getD ""
  .ok (rustTrim ("INSERT INTO " ++ b.table ++ "(" ++ fields ++ ") VALUES " ++ values ++ " " ++
    returning_statement))

/-- The sequential renumbering as the specification words it (§4.8):
scan the text left to right; the k-th occurrence of the generic marker
character becomes the sigil `$` followed by k (1-based); every other
character passes through. `n` is the number the next marker receives. -/
def seqRenumberSpec : List Char → Nat → String
  | [], _ => ""
  | c :: rest, n =>
    if c = '?' then ("$" ++ toString n) ++ seqRenumberSpec rest (n + 1)
    else String.singleton c ++ seqRenumberSpec rest n

/-- The whole placeholder substitution pass as the specification words
it: repeated-symbol passes the assembled text through unchanged aside
from trimming; sequential-numbered renumbers the markers 1-based and
trims. -/
def specPlaceholderPass : PlaceholderKind → String → String
  | .QuestionMark, s => rustTrim s
  | .DollarSequential, s => rustTrim (seqRenumberSpec s.data 1)

/-- Does one `SET` assignment carry a sub-select built with a
placeholder kind other than the generic `QuestionMark` one? -/
def nonGenericSubquery (item : SetFieldUpdate) : Prop :=
  match item.value with
  | SetValue.Query q => q.placeholder_kind ≠ PlaceholderKind.QuestionMark
  | SetValue.Value _ => False

instance (item : SetFieldUpdate) : Decidable (nonGenericSubquery item) :=
  match item with
  | ⟨_, SetValue.Query q⟩ =>
      inferInstanceAs (Decidable (q.placeholder_kind ≠ PlaceholderKind.QuestionMark))
  | ⟨_, SetValue.Value _⟩ => inferInstanceAs (Decidable False)

/-- All the strings a `ConditionBuilder` splices verbatim into its
rendered fragment are free of the generic marker character, and a
bound value is only attached to an operator that renders it. A
condition satisfying this contributes exactly `valueContribution` many
markers to the expression text. -/
def countSafe (c : ConditionBuilder) : Bool :=
  (countMarkers c.field == 0) &&
  (countMarkers (aliasDot c.table_alias) == 0) &&
  (countMarkers c.operator.toString == 0) &&
  (match c.value with
   | some (ConditionValue.Field a f) => (countMarkers a == 0) && (countMarkers f == 0)
   | some (ConditionValue.Single _) =>
       !(c.operator == Operator.IsNull || c.operator == Operator.NotNull)
   | some (ConditionValue.Range _ _) =>
       !(c.operator == Operator.IsNull || c.operator == Operator.NotNull)
   | none => true)

/-- Example inputs used by the witness theorems. -/
def c1WitnessCond : ConditionBuilder :=
  ⟨some "t", "a", Operator.Eq, some (ConditionValue.Single (Value.str "x")), none⟩

def c1WitnessExpr : ExpressionBuilder :=
  { condition := "t.a = ?", logic := none, values := [Value.str "x"] }

def c5BadSubquery : SelectBuilder := SelectBuilder.new PlaceholderKind.DollarSequential

def c5BadItem : SetFieldUpdate := ⟨"email", SetValue.Query c5BadSubquery⟩

def c6OrderItem : OrderByItem := ⟨none, "", Sequence.Asc⟩

def c6GroupItem : GroupByItem := ⟨none, ""⟩

def c8WitnessCond : ConditionBuilder :=
  ⟨some "t", "f", Operator.Eq, some (ConditionValue.Single (Value.str "v")), some Logic.And⟩

def c10MismatchBuilder : InsertBuilder :=
  (InsertBuilder.new PlaceholderKind.QuestionMark).columns ["a", "b"]

-- Scratch checks of the embedding against the Rust unit tests.
example : ConditionBuilder.build
    ⟨some "t", "myfield1", Operator.Eq, some (ConditionValue.Single (Value.str "test")), none⟩ =
    .ok "t.myfield1 = ?" := rfl

example : ConditionBuilder.build
    ⟨some "t", "myfield1", Operator.Eq,
      some (ConditionValue.Field "p" "myfield2"), some Logic.And⟩ =
    .ok "AND t.myfield1 = p.myfield2" := rfl

example : ConditionBuilder.build
    ⟨some "t", "myfield1", Operator.Between,
      some (ConditionValue.Range (Value.num 10) (Value.num 20)), some Logic.And⟩ =
    .ok "AND t.myfield1 BETWEEN ? AND ?" := rfl

example : ExpressionBuilder.build
    [⟨some "t", "myfield2", Operator.Between,
      some (ConditionValue.Range (Value.num 10) (Value.num 20)), some Logic.And⟩] none =
    .ok { condition := "AND t.myfield2 BETWEEN ? AND ?", logic := none,
          values := [Value.num 10, Value.num 20] } := rfl

example : (WhereBuilder.build
    [{ condition := "myfield1 = ? AND myfield2 = ?", logic := none },
     { condition := "myfield3 = ? AND myfield4 IN (?) OR myfield5 IS NULL",
       logic := some Logic.And }]).statement =
    "WHERE (myfield1 = ? AND myfield2 = ?) AND (myfield3 = ? AND myfield4 IN (?) OR myfield5 IS NULL)" := rfl

example : (WhereBuilder.build
    [{ condition := "myfield3 = ? AND myfield4 IN (?) OR myfield5 IS NULL",
       logic := some Logic.And }]).statement =
    "WHERE myfield3 = ? AND myfield4 IN (?) OR myfield5 IS NULL" := rfl

example : (JoinBuilder.build JoinKind.Left "products" "p"
    [{ condition := "p.id = o.product_id AND p.user_id = ?", logic := none, values := [Value.num 123] },
     { condition := "p.id = o.product_id AND p.user_id = ?", logic := some Logic.And, values := [Value.num 123] }]).statement =
    "LEFT JOIN products as p ON (p.id = o.product_id AND p.user_id = ?) AND (p.id = o.product_id AND p.user_id = ?)" := rfl

example : OrderByBuilder.build
    [⟨some "t", "myfield1", Sequence.Asc⟩, ⟨some "t", "myfield2", Sequence.Desc⟩] =
    .ok "ORDER BY t.myfield1 ASC, t.myfield2 DESC" := rfl

example : GroupByBuilder.build [⟨none, "myfield1", ⟩] = .ok "GROUP BY myfield1" := rfl

example : strConcat (substMap PlaceholderKind.DollarSequential "a = ? AND b = ?".data 0) =
    "a = $1 AND b = $2" := rfl

example : (((InsertBuilder.new PlaceholderKind.DollarSequential).setTable "users").columns
      ["name", "email"]).addValues [Value.str "Juan dela Cruz", Value.str "jdc@test.com"] >>=
    (fun b => b.addValues [Value.str "Jose Rizal", Value.str "jr@test.com"]) >>=
    InsertBuilder.build =
    .ok "INSERT INTO users(name, email) VALUES ($1, $2), ($3, $4)" := rfl

example : UpdateBuilder.build
    { table := "users", set_statement := "SET name = ?, email = ?",
      filter_statement := some "WHERE email = ?",
      returning_statement := some "RETURNING email, name",
      placeholder_kind := PlaceholderKind.DollarSequential } =
    .ok "UPDATE users SET name = $1, email = $2 WHERE email = $3 RETURNING email, name" := rfl

example : DeleteBuilder.build
    { table := "users as u", filter_statement := some "WHERE u.email = ?",
      returning_statement := some "RETURNING u.email, u.name",
      placeholder_kind := PlaceholderKind.QuestionMark } =
    .ok "DELETE FROM users as u WHERE u.email = ? RETURNING u.email, u.name" := rfl

example : SelectBuilder.build
    (((SelectBuilder.new PlaceholderKind.QuestionMark).setTable "mytable" "t").columns "t" []) =
    .ok "SELECT t.* FROM mytable as t" := rfl

-- Theorems.

/-- `(a ++ b)` holds the markers of `a` plus those of `b`. -/
theorem countMarkers_append (a b : String) :
    countMarkers (a ++ b) = countMarkers a + countMarkers b := by
  show (a.data ++ b.data).count '?' = a.data.count '?' + b.data.count '?'
  exact List.count_append _ _ _

/-- The character scan under the generic kind reassembles the input. -/
theorem strConcat_substMap_questionMark :
    ∀ (cs : List Char) (counter : Nat),
      strConcat (substMap PlaceholderKind.QuestionMark cs counter) = String.mk cs := by
  intro cs
  induction cs with
  | nil => intro counter; rfl
  | cons c rest ih =>
    intro counter
    by_cases h : c = '?'
    · subst h
      show strConcat ("?" :: substMap PlaceholderKind.QuestionMark rest counter) = _
      show "?" ++ strConcat (substMap PlaceholderKind.QuestionMark rest counter) = _
      rw [ih]
      rfl
    · show strConcat (if c = '?' then _ else _) = _
      rw [if_neg h]
      show String.singleton c ++ strConcat (substMap PlaceholderKind.QuestionMark rest counter) = _
      rw [ih]
      rfl

/-- The character scan under the sequential kind renumbers markers
left to right, 1-based relative to the running counter. -/
theorem strConcat_substMap_dollar :
    ∀ (cs : List Char) (counter : Nat),
      strConcat (substMap PlaceholderKind.DollarSequential cs counter) =
        seqRenumberSpec cs (counter + 1) := by
  intro cs
  induction cs with
  | nil => intro counter; rfl
  | cons c rest ih =>
    intro counter
    by_cases h : c = '?'
    · subst h
      show strConcat (("$" ++ toString (counter + 1)) ::
        substMap PlaceholderKind.DollarSequential rest (counter + 1)) = _
      show ("$" ++ toString (counter + 1)) ++
        strConcat (substMap PlaceholderKind.DollarSequential rest (counter + 1)) = _
      rw [ih]
      show _ = ("$" ++ toString (counter + 1)) ++ seqRenumberSpec rest (counter + 1 + 1)
      rfl
    · show strConcat (if c = '?' then _ else _) = _
      rw [if_neg h]
      show String.singleton c ++
        strConcat (substMap PlaceholderKind.DollarSequential rest counter) = _
      rw [ih]
      show _ = (if c = '?' then ("$" ++ toString (counter + 1)) ++ seqRenumberSpec rest (counter + 1 + 1)
        else String.singleton c ++ seqRenumberSpec rest (counter + 1))
      rw [if_neg h]

/-- C2: for every assembled statement text, building under the
sequential-numbered kind replaces each occurrence of the generic marker
character, scanning left to right, by `$` followed by a 1-based
incrementing counter; under the repeated-symbol kind the assembled text
passes through unchanged aside from whitespace trimming. Stated for all
three statement assemblers against the spec-worded pass
`specPlaceholderPass`. -/
theorem claim_C2_placeholder_pass :
    ∀ (sb : SelectBuilder) (ub : UpdateBuilder) (db : DeleteBuilder),
      SelectBuilder.build sb = .ok (specPlaceholderPass sb.placeholder_kind sb.statementText) ∧
      UpdateBuilder.build ub = .ok (specPlaceholderPass ub.placeholder_kind ub.statementText) ∧
      DeleteBuilder.build db = .ok (specPlaceholderPass db.placeholder_kind db.statementText) := by
  intro sb ub db
  refine ⟨?_, ?_, ?_⟩
  · cases h : sb.placeholder_kind with
    | QuestionMark => simp [SelectBuilder.build, specPlaceholderPass, h]
    | DollarSequential =>
        simp [SelectBuilder.build, specPlaceholderPass, h, strConcat_substMap_dollar]
  · cases h : ub.placeholder_kind with
    | QuestionMark =>
        simp [UpdateBuilder.build, specPlaceholderPass, h, strConcat_substMap_questionMark]
    | DollarSequential =>
        simp [UpdateBuilder.build, specPlaceholderPass, h, strConcat_substMap_dollar]
  · cases h : db.placeholder_kind with
    | QuestionMark =>
        simp [DeleteBuilder.build, specPlaceholderPass, h, strConcat_substMap_questionMark]
    | DollarSequential =>
        simp [DeleteBuilder.build, specPlaceholderPass, h, strConcat_substMap_dollar]

/-- C7: an Insert under the sequential-numbered kind with table `t`,
columns `a, b` and two two-value tuples builds exactly
`INSERT INTO t(a, b) VALUES ($1, $2), ($3, $4)`, numbered in tuple
order then element order. -/
theorem claim_C7_insert_sequential (v1 v2 v3 v4 : Value) :
    ((((InsertBuilder.new PlaceholderKind.DollarSequential).setTable "t").columns
        ["a", "b"]).addValues [v1, v2] >>=
      (fun b => b.addValues [v3, v4]) >>= InsertBuilder.build) =
      .ok "INSERT INTO t(a, b) VALUES ($1, $2), ($3, $4)" := rfl

/-- C9: calling `filter` (or `join`, for Select) with an empty
expression list returns without error and leaves every field of the
builder unchanged: no clause statement is recorded and no values are
appended. -/
theorem claim_C9_empty_filter_frame :
    ∀ (sb : SelectBuilder) (ub : UpdateBuilder) (db : DeleteBuilder)
      (kind : JoinKind) (table table_alias : String),
      sb.filter [] = sb ∧ sb.join kind table table_alias [] = sb ∧
      ub.filter [] = ub ∧ db.filter [] = db :=
  fun _ _ _ _ _ _ => ⟨rfl, rfl, rfl, rfl⟩

/-- C10: `InsertBuilder::build` returns Ok for every builder state,
even an arity-inconsistent one; the column/value arity check happens
only inside `values()` (embedded as `addValues`), which rejects a tuple
whose length differs from the column list. -/
theorem claim_C10_insert_build_total :
    ∀ (b : InsertBuilder) (vs : List Value),
      (∃ s, InsertBuilder.build b = Except.ok s) ∧
      (b.fields.length ≠ vs.length →
        InsertBuilder.addValues b vs = Except.error "mistched number of fields and values") := by
  intro b vs
  constructor
  · exact ⟨_, rfl⟩
  · intro h
    unfold InsertBuilder.addValues
    rw [if_pos h]

/-- Witness for C10 at a concrete arity-mismatched state: two declared
columns, a one-element tuple. -/
theorem claim_C10_witness :
    InsertBuilder.addValues c10MismatchBuilder [Value.null] =
      Except.error "mistched number of fields and values" :=
  (claim_C10_insert_build_total c10MismatchBuilder [Value.null]).2 (by decide)

/-- C3 counterexample: a Grouped Clause built from exactly one
Expression whose trailing connective is set (`AND`) renders without that
connective — the claim's predicted leading `AND` prefix is absent. -/
theorem claim_C3_counterexample :
    (WhereBuilder.build [{ condition := "f = ?", logic := some Logic.And }]).statement =
      "WHERE f = ?" ∧
    (WhereBuilder.build [{ condition := "f = ?", logic := some Logic.And }]).statement ≠
      "WHERE AND f = ?" :=
  ⟨rfl, by decide⟩

/-- C3 (amended): for a Grouped Clause (Where or Join variant) built
from exactly one Expression, the Expression's text passes through with
no added parentheses, and the Expression's trailing connective is
discarded entirely — it is not rendered as a leading prefix (the
output does not depend on it); any leading connective that does appear
was already embedded in the Expression's own text by its first
Condition. -/
theorem claim_C3_single_passthrough :
    ∀ (e : ExpressionBuilder) (kind : JoinKind) (table table_alias : String),
      (WhereBuilder.build [e]).statement = "WHERE " ++ rustTrim e.condition ∧
      (JoinBuilder.build kind table table_alias [e]).statement =
        kind.toString ++ " JOIN " ++ table ++ " as " ++ table_alias ++ " ON " ++
          rustTrim e.condition :=
  fun _ _ _ _ => ⟨rfl, rfl⟩

/-- C4: for a Grouped Clause built from two or more Expressions, each
Expression's text is wrapped in exactly one added parenthesis pair and
preceded by its trailing connective's text (the empty text when the
connective is unset); for exactly one Expression no parentheses are
added. -/
theorem claim_C4_grouped_wrapping :
    ∀ (e e1 e2 : ExpressionBuilder) (rest : List ExpressionBuilder)
      (kind : JoinKind) (table table_alias : String),
      (WhereBuilder.build (e1 :: e2 :: rest)).statement =
        "WHERE " ++ rustTrim (joinSep " " ((e1 :: e2 :: rest).map
          (fun x => optLogicText x.logic ++ " (" ++ x.condition ++ ")"))) ∧
      (JoinBuilder.build kind table table_alias (e1 :: e2 :: rest)).statement =
        kind.toString ++ " JOIN " ++ table ++ " as " ++ table_alias ++ " ON " ++
          rustTrim (joinSep " " ((e1 :: e2 :: rest).map
            (fun x => optLogicText x.logic ++ " (" ++ x.condition ++ ")"))) ∧
      (WhereBuilder.build [e]).statement = "WHERE " ++ rustTrim e.condition ∧
      (JoinBuilder.build kind table table_alias [e]).statement =
        kind.toString ++ " JOIN " ++ table ++ " as " ++ table_alias ++ " ON " ++
          rustTrim e.condition := by
  intro e e1 e2 rest kind table table_alias
  have hlen : decide ((e1 :: e2 :: rest).length > 1) = true := by simp
  refine ⟨?_, ?_, rfl, rfl⟩
  · show "WHERE " ++ rustTrim (joinSep " " ((e1 :: e2 :: rest).map
      (fun item => WhereBuilder.format item.condition item.logic
        (decide ((e1 :: e2 :: rest).length > 1))))) = _
    rw [hlen]
    rfl
  · show JoinKind.toString kind ++ " JOIN " ++ table ++ " as " ++ table_alias ++ " ON " ++
      rustTrim (joinSep " " ((e1 :: e2 :: rest).map
        (fun item => JoinBuilder.format item.condition item.logic
          (decide ((e1 :: e2 :: rest).length > 1))))) = _
    rw [hlen]
    rfl

/-- The `SET` loop fails with the non-generic-notation message as soon
as any remaining assignment carries a sub-select built with a
placeholder kind other than `QuestionMark`. -/
theorem setLoop_nongeneric_error :
    ∀ (items : List SetFieldUpdate) (expressions : List String) (values : List Value),
      (∃ i ∈ items, nonGenericSubquery i) →
      setLoop items expressions values =
        .error "select builder should be using the question mark placeholder kind" := by
  intro items
  induction items with
  | nil =>
    intro expressions values h
    rcases h with ⟨i, hi, _⟩
    cases hi
  | cons item rest ih =>
    intro expressions values h
    rcases h with ⟨i, hi, hbad⟩
    rcases List.mem_cons.mp hi with heq | hmem
    · subst heq
      obtain ⟨f, v⟩ := i
      cases v with
      | Value w => exact absurd hbad (by simp [nonGenericSubquery])
      | Query q =>
        have hq : q.placeholder_kind ≠ PlaceholderKind.QuestionMark := hbad
        show (if q.placeholder_kind ≠ PlaceholderKind.QuestionMark then _ else _) = _
        rw [if_pos hq]
    · obtain ⟨f, v⟩ := item
      cases v with
      | Value w => exact ih _ _ ⟨i, hmem, hbad⟩
      | Query q =>
        by_cases hq : q.placeholder_kind = PlaceholderKind.QuestionMark
        · show (if q.placeholder_kind ≠ PlaceholderKind.QuestionMark then _ else _) = _
          rw [if_neg (by simpa using hq)]
          have hbuild : SelectBuilder.build q = .ok (rustTrim q.statementText) := by
            unfold SelectBuilder.build
            rw [hq]
          rw [hbuild]
          exact ih _ _ ⟨i, hmem, hbad⟩
        · show (if q.placeholder_kind ≠ PlaceholderKind.QuestionMark then _ else _) = _
          rw [if_pos hq]

/-- C5: the Assignment (SET) Clause Builder returns an error whenever
any assignment's right-hand side is a nested select constructed with a
placeholder kind other than the generic question-mark one. -/
theorem claim_C5_set_rejects_nongeneric :
    ∀ (items : List SetFieldUpdate),
      (∃ i ∈ items, nonGenericSubquery i) →
      SetBuilder.build items =
        .error "select builder should be using the question mark placeholder kind" := by
  intro items h
  unfold SetBuilder.build
  rw [setLoop_nongeneric_error items [] [] h]

/-- Witness for C5: one assignment whose right-hand side is a
sub-select built under the sequential kind is rejected. -/
theorem claim_C5_witness :
    SetBuilder.build [c5BadItem] =
      .error "select builder should be using the question mark placeholder kind" :=
  claim_C5_set_rejects_nongeneric [c5BadItem] ⟨c5BadItem, List.Mem.head _, by decide⟩

/-- The ORDER BY loop fails on the first item with an empty field. -/
theorem orderByLoop_empty_field_error :
    ∀ (items : List OrderByItem) (acc : List String),
      (∃ i ∈ items, i.field = "") →
      orderByLoop items acc = .error "order by field is empty" := by
  intro items
  induction items with
  | nil =>
    intro acc h
    rcases h with ⟨i, hi, _⟩
    cases hi
  | cons item rest ih =>
    intro acc h
    rcases h with ⟨i, hi, hbad⟩
    rcases List.mem_cons.mp hi with heq | hmem
    · subst heq
      show (if i.field = "" then _ else _) = _
      rw [if_pos hbad]
    · by_cases hf : item.field = ""
      · show (if item.field = "" then _ else _) = _
        rw [if_pos hf]
      · show (if item.field = "" then _ else _) = _
        rw [if_neg hf]
        split
        · exact ih _ ⟨i, hmem, hbad⟩
        · exact ih _ ⟨i, hmem, hbad⟩

/-- The GROUP BY loop fails on the first item with an empty field. -/
theorem groupByLoop_empty_field_error :
    ∀ (items : List GroupByItem) (acc : List String),
      (∃ i ∈ items, i.field = "") →
      groupByLoop items acc = .error "group by field is empty" := by
  intro items
  induction items with
  | nil =>
    intro acc h
    rcases h with ⟨i, hi, _⟩
    cases hi
  | cons item rest ih =>
    intro acc h
    rcases h with ⟨i, hi, hbad⟩
    rcases List.mem_cons.mp hi with heq | hmem
    · subst heq
      show (if i.field = "" then _ else _) = _
      rw [if_pos hbad]
    · by_cases hf : item.field = ""
      · show (if item.field = "" then _ else _) = _
        rw [if_pos hf]
      · show (if item.field = "" then _ else _) = _
        rw [if_neg hf]
        split
        · exact ih _ ⟨i, hmem, hbad⟩
        · exact ih _ ⟨i, hmem, hbad⟩

/-- C6: `OrderByBuilder::build` and `GroupByBuilder::build` fail with a
validation error on the empty item list and on any item list holding an
item with an empty field; the failure carries only the error message,
so no clause text is produced. -/
theorem claim_C6_order_group_validation :
    ∀ (os : List OrderByItem) (gs : List GroupByItem),
      (OrderByBuilder.build ([] : List OrderByItem) = .error "order by item is empty") ∧
      (GroupByBuilder.build ([] : List GroupByItem) = .error "group by item is empty") ∧
      ((∃ i ∈ os, i.field = "") → OrderByBuilder.build os = .error "order by field is empty") ∧
      ((∃ i ∈ gs, i.field = "") → GroupByBuilder.build gs = .error "group by field is empty") := by
  intro os gs
  refine ⟨rfl, rfl, ?_, ?_⟩
  · intro h
    have hne : os.isEmpty = false := by
      rcases h with ⟨i, hi, _⟩
      cases os
      · cases hi
      · rfl
    unfold OrderByBuilder.build
    rw [hne, orderByLoop_empty_field_error os [] h]
    rfl
  · intro h
    have hne : gs.isEmpty = false := by
      rcases h with ⟨i, hi, _⟩
      cases gs
      · cases hi
      · rfl
    unfold GroupByBuilder.build
    rw [hne, groupByLoop_empty_field_error gs [] h]
    rfl

/-- Witness for C6: a single order-by item and a single group-by item
with empty fields are both rejected. -/
theorem claim_C6_witness :
    OrderByBuilder.build [c6OrderItem] = .error "order by field is empty" ∧
    GroupByBuilder.build [c6GroupItem] = .error "group by field is empty" :=
  ⟨(claim_C6_order_group_validation [c6OrderItem] []).2.2.1 ⟨c6OrderItem, List.Mem.head _, rfl⟩,
   (claim_C6_order_group_validation [] [c6GroupItem]).2.2.2 ⟨c6GroupItem, List.Mem.head _, rfl⟩⟩

/-- C8 counterexample: a Condition with a non-empty field, an operator
other than `IsNull`/`NotNull` (here `=`), and no value reference
renders as `f =` with no bound marker at all (the marker character does
not occur), while the claim predicts a trailing bound marker for every
non-null-check operator. -/
theorem claim_C8_counterexample :
    ConditionBuilder.build ⟨none, "f", Operator.Eq, none, none⟩ = .ok "f =" ∧
    countMarkers "f =" = 0 :=
  ⟨rfl, by decide⟩

/-- C8 (amended): for every Condition with a non-empty field, the
rendered fragment is `{alias.}field {operator-text}` when the operator
is `IsNull`/`NotNull` or when no value reference is attached, and
`{alias.}field {operator-text} {bound-marker}` otherwise, the whole
fragment prefixed by `{CONNECTIVE} ` exactly when the connective is
set. -/
theorem claim_C8_condition_render :
    ∀ (c : ConditionBuilder), c.field ≠ "" →
      ConditionBuilder.build c = .ok
        ((match c.logic with
          | some l => l.toString ++ " "
          | none => "") ++
         (match c.value with
          | some v =>
            if c.operator = Operator.IsNull ∨ c.operator = Operator.NotNull then
              aliasDot c.table_alias ++ c.field ++ " " ++ c.operator.toString
            else
              aliasDot c.table_alias ++ c.field ++ " " ++ c.operator.toString ++ " " ++
                ((ConditionBuilder.bind v).getD "")
          | none => aliasDot c.table_alias ++ c.field ++ " " ++ c.operator.toString)) := by
  intro c hf
  unfold ConditionBuilder.build
  rw [if_neg hf]
  cases hv : c.value with
  | none =>
    cases hl : c.logic with
    | none => simp
    | some l => rfl
  | some v =>
    by_cases hop : c.operator = Operator.IsNull ∨ c.operator = Operator.NotNull
    · have hni : ¬(c.operator ≠ Operator.IsNull ∧ c.operator ≠ Operator.NotNull) := by
        tauto
      cases hl : c.logic with
      | none => simp [hni, hop, ConditionBuilder.bind]
      | some l => simp [hni, hop, ConditionBuilder.bind]
    · have hni : c.operator ≠ Operator.IsNull ∧ c.operator ≠ Operator.NotNull := by
        tauto
      cases hl : c.logic with
      | none => simp [hni.1, hni.2, ConditionBuilder.bind]
      | some l => simp [hni.1, hni.2, ConditionBuilder.bind]

/-- Witness for C8 at a concrete condition with alias, connective and a
single literal value. -/
theorem claim_C8_witness :
    ConditionBuilder.build c8WitnessCond = .ok "AND t.f = ?" :=
  claim_C8_condition_render c8WitnessCond (by decide)

/-- Neither connective text holds the marker character. -/
theorem countMarkers_logic (l : Logic) : countMarkers l.toString = 0 := by
  cases l <;> rfl

/-- The literal separators spliced between fragment parts hold no
marker character. -/
@[simp] theorem countMarkers_space : countMarkers " " = 0 := rfl

@[simp] theorem countMarkers_dot : countMarkers "." = 0 := rfl

@[simp] theorem countMarkers_sep_and : countMarkers " AND " = 0 := rfl

@[simp] theorem countMarkers_empty : countMarkers "" = 0 := rfl

/-- Every bound value renders exactly one marker (`?` or `(?)`). -/
theorem countMarkers_bind_value (v : Value) :
    countMarkers (ConditionBuilder.bind_value v) = 1 := by
  cases v <;> rfl

/-- A rendered condition fragment holds exactly `valueContribution`
many markers when the condition is `countSafe`. -/
theorem countMarkers_cond_build :
    ∀ (c : ConditionBuilder) (s : String),
      ConditionBuilder.build c = .ok s → countSafe c = true →
      countMarkers s = valueContribution c.value := by
  intro c s hb hsafe
  unfold countSafe at hsafe
  rw [Bool.and_eq_true, Bool.and_eq_true, Bool.and_eq_true] at hsafe
  obtain ⟨⟨⟨h1, h2⟩, h3⟩, h4⟩ := hsafe
  rw [beq_iff_eq] at h1 h2 h3
  unfold ConditionBuilder.build at hb
  by_cases hf : c.field = ""
  · rw [if_pos hf] at hb
    cases hb
  · rw [if_neg hf] at hb
    cases hv : c.value with
    | none =>
      cases hl : c.logic with
      | none =>
        simp only [hv, hl] at hb
        injection hb with hb
        subst hb
        simp [hv, countMarkers_append, h1, h2, h3, valueContribution]
      | some l =>
        simp only [hv, hl] at hb
        injection hb with hb
        subst hb
        simp [hv, countMarkers_append, h1, h2, h3, countMarkers_logic, valueContribution]
    | some v =>
      rw [hv] at h4
      cases v with
      | Single w =>
        simp only at h4
        rw [Bool.not_eq_eq_eq_not, Bool.not_true, Bool.or_eq_false_iff] at h4
        obtain ⟨ho1, ho2⟩ := h4
        rw [beq_eq_false_iff_ne] at ho1 ho2
        have hcond : c.operator ≠ Operator.IsNull ∧ c.operator ≠ Operator.NotNull := ⟨ho1, ho2⟩
        cases hl : c.logic with
        | none =>
          simp only [hv, hl, ConditionBuilder.bind, if_pos hcond] at hb
          injection hb with hb
          subst hb
          simp [hv, countMarkers_append, h1, h2, h3, countMarkers_bind_value, valueContribution]
        | some l =>
          simp only [hv, hl, ConditionBuilder.bind, if_pos hcond] at hb
          injection hb with hb
          subst hb
          simp [hv, countMarkers_append, h1, h2, h3, countMarkers_logic,
            countMarkers_bind_value, valueContribution]
      | Range w1 w2 =>
        simp only at h4
        rw [Bool.not_eq_eq_eq_not, Bool.not_true, Bool.or_eq_false_iff] at h4
        obtain ⟨ho1, ho2⟩ := h4
        rw [beq_eq_false_iff_ne] at ho1 ho2
        have hcond : c.operator ≠ Operator.IsNull ∧ c.operator ≠ Operator.NotNull := ⟨ho1, ho2⟩
        cases hl : c.logic with
        | none =>
          simp only [hv, hl, ConditionBuilder.bind, if_pos hcond] at hb
          injection hb with hb
          subst hb
          simp [hv, countMarkers_append, h1, h2, h3, countMarkers_bind_value, valueContribution]
        | some l =>
          simp only [hv, hl, ConditionBuilder.bind, if_pos hcond] at hb
          injection hb with hb
          subst hb
          simp [hv, countMarkers_append, h1, h2, h3, countMarkers_logic,
            countMarkers_bind_value, valueContribution]
      | Field a f =>
        simp only at h4
        rw [Bool.and_eq_true, beq_iff_eq, beq_iff_eq] at h4
        obtain ⟨ha, hfm⟩ := h4
        by_cases hcond : c.operator ≠ Operator.IsNull ∧ c.operator ≠ Operator.NotNull
        · cases hl : c.logic with
          | none =>
            simp only [hv, hl, ConditionBuilder.bind, if_pos hcond] at hb
            injection hb with hb
            subst hb
            simp [hv, countMarkers_append, h1, h2, h3, ha, hfm, valueContribution]
          | some l =>
            simp only [hv, hl, ConditionBuilder.bind, if_pos hcond] at hb
            injection hb with hb
            subst hb
            simp [hv, countMarkers_append, h1, h2, h3, ha, hfm, countMarkers_logic,
              valueContribution]
        · cases hl : c.logic with
          | none =>
            simp only [hv, hl, ConditionBuilder.bind, if_neg hcond] at hb
            injection hb with hb
            subst hb
            simp [hv, countMarkers_append, h1, h2, h3, valueContribution]
          | some l =>
            simp only [hv, hl, ConditionBuilder.bind, if_neg hcond] at hb
            injection hb with hb
            subst hb
            simp [hv, countMarkers_append, h1, h2, h3, countMarkers_logic, valueContribution]

/-- Folding conditions into an Expression accumulates the counts: the
value-list length grows by the contribution sum unconditionally, and
the marker count grows by that same sum when every folded condition is
`countSafe`. -/
theorem exprFold_counts :
    ∀ (conds : List ConditionBuilder) (data e : ExpressionBuilder),
      exprFold conds data = .ok e →
      (e.values.length = data.values.length +
        ((conds.map fun c => valueContribution c.value).sum)) ∧
      ((∀ c ∈ conds, countSafe c = true) →
        countMarkers e.condition = countMarkers data.condition +
          ((conds.map fun c => valueContribution c.value).sum)) := by
  intro conds
  induction conds with
  | nil =>
    intro data e h
    injection h with h
    subst h
    simp
  | cons item rest ih =>
    intro data e h
    unfold exprFold at h
    cases hb : ConditionBuilder.build item with
    | error msg =>
      rw [hb] at h
      cases h
    | ok condition =>
      rw [hb] at h
      obtain ⟨ihlen, ihcount⟩ := ih _ e h
      constructor
      · rw [ihlen]
        cases hv : item.value with
        | none => simp [hv, valueContribution]
        | some v =>
          cases v with
          | Single w => simp [hv, valueContribution]; omega
          | Range w1 w2 => simp [hv, valueContribution]; omega
          | Field a f => simp [hv, valueContribution]
      · intro hsafe
        have hitem := hsafe item (List.Mem.head _)
        have hrest : ∀ c ∈ rest, countSafe c = true :=
          fun c hc => hsafe c (List.Mem.tail _ hc)
        rw [ihcount hrest]
        have hc := countMarkers_cond_build item condition hb hitem
        by_cases hdc : data.condition = ""
        · simp [hdc, hc]
        · simp [hdc, countMarkers_append, hc]
          omega

/-- C1 counterexample: the claimed equality of marker count,
contribution sum and value count fails on inputs the code accepts.
With operator `?` (`JsonbHasKey`) and a field-reference value, the
text `f ? a.b` holds one marker character while the contribution sum
and value list are 0; with operator `IS NULL` carrying a literal
value, the text `f IS NULL` holds no marker while the contribution sum
and value count are 1. -/
theorem claim_C1_counterexample :
    (ExpressionBuilder.build
        [⟨none, "f", Operator.JsonbHasKey, some (ConditionValue.Field "a" "b"), none⟩] none =
      .ok { condition := "f ? a.b", logic := none, values := [] }) ∧
    countMarkers "f ? a.b" = 1 ∧
    valueContribution (some (ConditionValue.Field "a" "b")) = 0 ∧
    (ExpressionBuilder.build
        [⟨none, "f", Operator.IsNull, some (ConditionValue.Single (Value.str "x")), none⟩] none =
      .ok { condition := "f IS NULL", logic := none, values := [Value.str "x"] }) ∧
    countMarkers "f IS NULL" = 0 ∧
    valueContribution (some (ConditionValue.Single (Value.str "x"))) = 1 :=
  ⟨rfl, by decide, rfl, rfl, by decide, rfl⟩

/-- C1 (amended): for every valid non-empty Condition list in which
each Condition is `countSafe` — its field, alias, operator text and
any field-reference strings are free of the generic marker character,
and no `IsNull`/`NotNull` condition carries a Literal or Range value —
the number of generic markers in the built Expression's text equals
the sum of per-Condition contributions (Literal 1, Range 2,
FieldReference 0), which also equals the length of the Expression's
values list (the latter equality needs no side condition). -/
theorem claim_C1_marker_count :
    ∀ (conds : List ConditionBuilder) (logic : Option Logic) (e : ExpressionBuilder),
      conds ≠ [] →
      (∀ c ∈ conds, countSafe c = true) →
      ExpressionBuilder.build conds logic = .ok e →
      countMarkers e.condition = ((conds.map fun c => valueContribution c.value).sum) ∧
      e.values.length = ((conds.map fun c => valueContribution c.value).sum) := by
  intro conds logic e _ hsafe hb
  unfold ExpressionBuilder.build at hb
  cases hf : exprFold conds {} with
  | error msg =>
    rw [hf] at hb
    cases hb
  | ok data =>
    rw [hf] at hb
    injection hb with hb
    obtain ⟨hlen, hcount⟩ := exprFold_counts conds {} data hf
    subst hb
    constructor
    · have h := hcount hsafe
      simpa using h
    · simpa using hlen

/-- Witness for C1 at a one-condition list with a literal value:
`t.a = ?` holds one marker and binds one value. -/
theorem claim_C1_witness :
    countMarkers c1WitnessExpr.condition =
      (([c1WitnessCond].map fun c => valueContribution c.value).sum) ∧
    c1WitnessExpr.values.length =
      (([c1WitnessCond].map fun c => valueContribution c.value).sum) :=
  claim_C1_marker_count [c1WitnessCond] none c1WitnessExpr
    (List.cons_ne_nil _ _) (by decide) rfl
